import Mathlib

/-!
Shallow embedding of the py-natpmp NAT-PMP client library
(`natpmp/NATPMP.py`): the wire codec for requests and responses, the
send/await/retry transaction engine `send_request_with_retry`, and the
high-level operation `map_port`.

Modelling conventions.  Machine integers become `Nat` with explicit
`% 256`-style masking where the byte layout matters; byte strings become
`List Nat`; fallible decoding (Python `struct.unpack`, which raises
`struct.error` on a length mismatch) returns `Option`.  Network I/O is
modelled by (a) an event trace recording the socket operations the code
performs (open, send, close, gateway discovery) and (b) a delivery
oracle `Nat → Option Datagram` giving, for each attempt number, the
datagram `(bytes, source address, source port)` the `select`+`recvfrom`
pair in `read_response` would deliver within that attempt's timeout
window, or `none` on timeout.
-/

namespace NATPMP

/-- Constant `NATPMP_PORT = 5351` from the source. -/
def NATPMP_PORT : Nat := 5351

/-- Constant `NATPMP_RESERVED_VAL = 0` from the source. -/
def NATPMP_RESERVED_VAL : Nat := 0

/-- Constant `NATPMP_PROTOCOL_UDP = 1` from the source. -/
def NATPMP_PROTOCOL_UDP : Nat := 1

/-- Constant `NATPMP_PROTOCOL_TCP = 2` from the source. -/
def NATPMP_PROTOCOL_TCP : Nat := 2

/-- Synthetic local error code `NATPMP_GATEWAY_NO_VALID_GATEWAY = -10`. -/
def NATPMP_GATEWAY_NO_VALID_GATEWAY : Int := -10

/-- Synthetic local error code `NATPMP_GATEWAY_NO_SUPPORT = -11`. -/
def NATPMP_GATEWAY_NO_SUPPORT : Int := -11

/-- Synthetic local error code `NATPMP_GATEWAY_CANNOT_FIND = -12`. -/
def NATPMP_GATEWAY_CANNOT_FIND : Int := -12

/-- Big-endian 2-byte encoding, as produced by `struct.pack` format `H`.
`struct.pack` rejects out-of-range values; the embedding is only applied
to in-range fields (the claims hypothesise the ranges). -/
def u16be (x : Nat) : List Nat := [x / 256 % 256, x % 256]

/-- Big-endian 4-byte encoding, as produced by `struct.pack` format `I`. -/
def u32be (x : Nat) : List Nat :=
  [x / 16777216 % 256, x / 65536 % 256, x / 256 % 256, x % 256]

/-- Fields of the source class `PortMapRequest` (version, opcode, the
requested private and public ports, and the requested lifetime). -/
structure PortMapRequest where
  version : Nat
  opcode : Nat
  private_port : Nat
  public_port : Nat
  lifetime : Nat
  deriving DecidableEq

/-- Constructor `PortMapRequest(protocol, private_port, public_port,
lifetime, version)`; the base-class constructor stores `protocol` as the
opcode.  The source defaults `version` to 0. -/
def PortMapRequest.init (protocol private_port public_port lifetime version : Nat) :
    PortMapRequest :=
  { version := version, opcode := protocol, private_port := private_port,
    public_port := public_port, lifetime := lifetime }

/-- Method `NATPMPRequest.toBytes`: `struct.pack('!BB', version, opcode)`. -/
def NATPMPRequest.toBytes (version opcode : Nat) : List Nat :=
  [version % 256, opcode % 256]

/-- Method `PortMapRequest.toBytes`: the base-class header followed by
`struct.pack('!HHHI', NATPMP_RESERVED_VAL, private_port, public_port,
lifetime)`. -/
def PortMapRequest.toBytes (r : PortMapRequest) : List Nat :=
  NATPMPRequest.toBytes r.version r.opcode
    ++ u16be NATPMP_RESERVED_VAL ++ u16be r.private_port
    ++ u16be r.public_port ++ u32be r.lifetime

/-- Fields of the source class `PublicAddressResponse`.  The dotted-quad
string `ip` produced by `socket.inet_ntoa(bytes[8:12])` is modelled as
its four octets. -/
structure PublicAddressResponse where
  version : Nat
  opcode : Nat
  result : Nat
  sec_since_epoch : Nat
  ip_int : Nat
  ip : List Nat
  deriving DecidableEq

/-- Fields of the source class `PortMapResponse`. -/
structure PortMapResponse where
  version : Nat
  opcode : Nat
  result : Nat
  sec_since_epoch : Nat
  private_port : Nat
  public_port : Nat
  lifetime : Nat
  deriving DecidableEq

/-- Constructor `PublicAddressResponse(bytes)`: `struct.unpack('!BBHII',
bytes)`, which raises `struct.error` (modelled as `none`) unless the
input is exactly 12 bytes. -/
def decodePublicAddressResponse (b : List Nat) : Option PublicAddressResponse :=
  if b.length = 12 then
    some { version := b.getD 0 0, opcode := b.getD 1 0,
           result := b.getD 2 0 * 256 + b.getD 3 0,
           sec_since_epoch :=
             ((b.getD 4 0 * 256 + b.getD 5 0) * 256 + b.getD 6 0) * 256 + b.getD 7 0,
           ip_int :=
             ((b.getD 8 0 * 256 + b.getD 9 0) * 256 + b.getD 10 0) * 256 + b.getD 11 0,
           ip := (b.drop 8).take 4 }
  else none

/-- Constructor `PortMapResponse(bytes)`: `struct.unpack('!BBHIHHI',
bytes)`, which raises `struct.error` (modelled as `none`) unless the
input is exactly 16 bytes. -/
def decodePortMapResponse (b : List Nat) : Option PortMapResponse :=
  if b.length = 16 then
    some { version := b.getD 0 0, opcode := b.getD 1 0,
           result := b.getD 2 0 * 256 + b.getD 3 0,
           sec_since_epoch :=
             ((b.getD 4 0 * 256 + b.getD 5 0) * 256 + b.getD 6 0) * 256 + b.getD 7 0,
           private_port := b.getD 8 0 * 256 + b.getD 9 0,
           public_port := b.getD 10 0 * 256 + b.getD 11 0,
           lifetime :=
             ((b.getD 12 0 * 256 + b.getD 13 0) * 256 + b.getD 14 0) * 256 + b.getD 15 0 }
  else none

/-- Decoder for the `PortMapRequest` wire layout (spec §6, request side):
the inverse reader of `PortMapRequest.toBytes`.  The source defines no
request decoder (its decoders are the response constructors); this
definition is the spec-side reader used to state the amended round-trip
property of claim C7. -/
def decodePortMapRequest (b : List Nat) : Option PortMapRequest :=
  if b.length = 12 then
    some { version := b.getD 0 0, opcode := b.getD 1 0,
           private_port := b.getD 4 0 * 256 + b.getD 5 0,
           public_port := b.getD 6 0 * 256 + b.getD 7 0,
           lifetime :=
             ((b.getD 8 0 * 256 + b.getD 9 0) * 256 + b.getD 10 0) * 256 + b.getD 11 0 }
  else none

/-- Function `error_str(result_code)`: the `NATPMP_ERROR_DICT` lookup
with the `"Unknown fatal error."` fallback. -/
def error_str (result_code : Int) : String :=
  if result_code = 0 then "No error."
  else if result_code = 1 then "The protocol version specified is unsupported."
  else if result_code = 2 then "The operation was refused.  NAT-PMP may be turned off on gateway."
  else if result_code = 3 then "There was a network failure.  The gateway may not have an IP address."
  else if result_code = 4 then "The NAT-PMP gateway is out of resources and cannot create more mappings."
  else if result_code = 5 then "The NAT-PMP gateway does not support this operation"
  else if result_code = NATPMP_GATEWAY_NO_SUPPORT then "The gateway does not support NAT-PMP"
  else if result_code = NATPMP_GATEWAY_NO_VALID_GATEWAY then "No valid gateway address was specified."
  else if result_code = NATPMP_GATEWAY_CANNOT_FIND then
    "Cannot automatically determine gateway address.  Must specify manually."
  else "Unknown fatal error."

/-- Observable side effects of the code on the network, in order.  The
constructors cover the socket operations the source can perform:
`get_gateway_socket` creates a socket (`sockOpen`), `send_request`
transmits one datagram (`sendDgram`), `get_gateway_addr` scrapes the
routing table (`discoverGateway`), and `sockClose` stands for an
explicit socket close/release (the source contains no close call, so no
definition below ever emits it). -/
inductive NetEvent where
  | sockOpen (gateway : String)
  | sockClose
  | discoverGateway
  | sendDgram (bytes : List Nat)
  deriving DecidableEq

/-- Predicate selecting send events. -/
def NetEvent.isSend : NetEvent → Bool
  | NetEvent.sendDgram _ => true
  | _ => false

/-- Number of datagram sends in an event trace. -/
def sendCount (evs : List NetEvent) : Nat := (evs.filter NetEvent.isSend).length

/-- Datagram delivered to the socket in one attempt window: payload
bytes, source address, source port. -/
abbrev Datagram := List Nat × String × Nat

/-- Function `read_response(gateway_socket, timeout, responseSize)`:
`select` followed by `recvfrom(responseSize)`.  The `delivered` argument
is what the wait produces: `none` on timeout, in which case the source
returns the sentinel `data = ""` and `source_addr = ("", "")` (the
string-typed sentinel port is modelled as 0, which like `""` differs
from `NATPMP_PORT`); on delivery, `recvfrom(responseSize)` returns at
most the first `responseSize` bytes of the datagram (UDP truncation)
together with its source address and port. -/
def read_response (delivered : Option Datagram) (responseSize : Nat) :
    List Nat × String × Nat :=
  match delivered with
  | none => ([], "", 0)
  | some (d, ip, port) => (d.take responseSize, ip, port)

/-- Data one attempt of the retry loop in `send_request_with_retry` ends
up holding: the `read_response` result (with the default
`responseSize = 16`) after the source-mismatch discard
`if source_addr[0] != gateway_ip or source_addr[1] != NATPMP_PORT:
data = ""`. -/
def attemptData (gateway_ip : String) (delivered : Option Datagram) : List Nat :=
  let rr := read_response delivered 16
  if rr.2.1 ≠ gateway_ip ∨ rr.2.2 ≠ NATPMP_PORT then [] else rr.1

/-- Loop `while n <= retry and not data` of `send_request_with_retry`,
compiled to structural recursion on the remaining iteration budget
`fuel = retry + 1 - n` (the loop runs while `n ≤ retry` and exits as
soon as an attempt keeps non-empty data).  Each iteration sends the
encoded request, reads with timeout `n * retry_increment` (timing is
absorbed by the oracle), applies the source filter, and increments `n`.
Returns the event trace, the final value of `n`, and the final data. -/
def srwrGo (gateway_ip : String) (reqBytes : List Nat) (oracle : Nat → Option Datagram) :
    Nat → Nat → List NetEvent × Nat × List Nat
  | n, 0 => ([], n, [])
  | n, fuel + 1 =>
    let data := attemptData gateway_ip (oracle n)
    if data = [] then
      let rest := srwrGo gateway_ip reqBytes oracle (n + 1) fuel
      (NetEvent.sendDgram reqBytes :: rest.1, rest.2.1, rest.2.2)
    else
      ([NetEvent.sendDgram reqBytes], n + 1, data)

/-- Terminal outcome of `send_request_with_retry`: a decoded response, a
raw (undecoded) return value, or one of the exceptions the source can
raise (`NATPMPNetworkError` from `get_gateway_socket`,
`NATPMPUnsupportedError` on exhaustion, `struct.error` from the response
constructor, modelled as `decodeError`). -/
inductive Outcome (ρ : Type) where
  | ok (resp : ρ)
  | raw (data : List Nat)
  | networkError (code : Int) (description : String)
  | unsupportedError (code : Int) (description : String)
  | decodeError
  deriving DecidableEq

/-- Post-loop tail of `send_request_with_retry` (source lines 361-365):
the exhaustion check `if n >= retry and not data`, then the decode
`if data and response_data_class: data = response_data_class(data)`, and
the final `return data`.  `response_data_class` is modelled as always
supplied, as in both in-repo callers. -/
def srwrOutcome {ρ : Type} (decode : List Nat → Option ρ) (retry nFinal : Nat)
    (data : List Nat) : Outcome ρ :=
  if retry ≤ nFinal ∧ data = [] then
    Outcome.unsupportedError NATPMP_GATEWAY_NO_SUPPORT (error_str NATPMP_GATEWAY_NO_SUPPORT)
  else if data = [] then Outcome.raw data
  else
    match decode data with
    | some r => Outcome.ok r
    | none => Outcome.decodeError

/-- Function `send_request_with_retry(gateway_ip, request,
response_data_class, retry)`: `get_gateway_socket` (which raises
`NATPMPNetworkError` on an empty gateway address, before creating any
socket), then the retry loop from `n = 1`, then the post-loop tail.
`reqBytes` is the serialized request (`request.toBytes()`), `decode` the
`response_data_class` constructor. -/
def send_request_with_retry {ρ : Type} (gateway_ip : String) (reqBytes : List Nat)
    (decode : List Nat → Option ρ) (oracle : Nat → Option Datagram) (retry : Nat) :
    List NetEvent × Outcome ρ :=
  if gateway_ip = "" then
    ([], Outcome.networkError NATPMP_GATEWAY_NO_VALID_GATEWAY
      (error_str NATPMP_GATEWAY_NO_VALID_GATEWAY))
  else
    let run := srwrGo gateway_ip reqBytes oracle 1 retry
    (NetEvent.sockOpen gateway_ip :: run.1, srwrOutcome decode retry run.2.1 run.2.2)

/-- Terminal outcome of `map_port`: the `ValueError` raised on an
invalid protocol, a `NATPMPResultError` (code, description, full decoded
response), a returned response, or a propagated engine outcome.
`rawReturn` marks the unreachable branch in which the engine returned
undecoded empty data (the source would then fault on the `.result`
attribute access). -/
inductive MapPortOutcome where
  | valueError (msg : String)
  | resultError (code : Nat) (description : String) (resp : PortMapResponse)
  | response (resp : PortMapResponse)
  | rawReturn (data : List Nat)
  | networkError (code : Int) (description : String)
  | unsupportedError (code : Int) (description : String)
  | decodeError
  deriving DecidableEq

/-- Function `map_port(protocol, public_port, private_port, lifetime,
gateway_ip, retry, use_exception)`.  The protocol check happens first;
with `gateway_ip = None` the source then calls `get_gateway_addr()`,
modelled by the `discoverGateway` event and the externally supplied
`discovered` address (the OS routing-table scraping itself is outside
the embedding).  It builds
`PortMapRequest(protocol, private_port, public_port, lifetime)`, runs
`send_request_with_retry` with `PortMapResponse` as the decoder, and
applies the `use_exception` result-code policy. -/
def map_port (protocol public_port private_port lifetime : Nat)
    (gateway_ip : Option String) (retry : Nat) (use_exception : Bool)
    (discovered : String) (oracle : Nat → Option Datagram) :
    List NetEvent × MapPortOutcome :=
  if protocol ≠ NATPMP_PROTOCOL_UDP ∧ protocol ≠ NATPMP_PROTOCOL_TCP then
    ([], MapPortOutcome.valueError "Must be either NATPMP_PROTOCOL_UDP or NATPMP_PROTOCOL_TCP")
  else
    let gwPair : List NetEvent × String :=
      match gateway_ip with
      | none => ([NetEvent.discoverGateway], discovered)
      | some g => ([], g)
    let req := PortMapRequest.init protocol private_port public_port lifetime 0
    let res := send_request_with_retry gwPair.2 req.toBytes decodePortMapResponse oracle retry
    let events := gwPair.1 ++ res.1
    match res.2 with
    | Outcome.ok resp =>
        if resp.result ≠ 0 ∧ use_exception = true then
          (events, MapPortOutcome.resultError resp.result (error_str (resp.result : Int)) resp)
        else (events, MapPortOutcome.response resp)
    | Outcome.raw d => (events, MapPortOutcome.rawReturn d)
    | Outcome.networkError c m => (events, MapPortOutcome.networkError c m)
    | Outcome.unsupportedError c m => (events, MapPortOutcome.unsupportedError c m)
    | Outcome.decodeError => (events, MapPortOutcome.decodeError)

/-- Shared concrete fixture: the wire form of
`PortMapRequest(NATPMP_PROTOCOL_TCP, 62001, 62001, 3600)`. -/
def demoReqBytes : List Nat := (PortMapRequest.init 2 62001 62001 3600 0).toBytes

/-- Shared concrete fixture: a gateway that never replies (every wait
times out). -/
def oracleSilent : Nat → Option Datagram := fun _ => none

/-- Shared concrete fixture: the gateway at 10.0.1.1 answers the first
attempt with a 10-byte (wrong-length) datagram from the correct source
address and port. -/
def oracleShortDgram : Nat → Option Datagram := fun k =>
  if k = 1 then some ([0, 129, 0, 0, 0, 0, 0, 0, 0, 0], "10.0.1.1", 5351) else none

/-- Shared concrete fixture: a spoofed reply from 9.9.9.9 arrives in the
second attempt window; nothing else ever arrives. -/
def oracleSpoofed : Nat → Option Datagram := fun k =>
  if k = 2 then some ([1, 2, 3], "9.9.9.9", 5351) else none

/-- Shared concrete fixture: a well-formed 16-byte `PortMapResponse`
datagram with result code 2 (not authorized), seconds-since-epoch 7,
both ports 62001, lifetime 3600. -/
def respBytesResult2 : List Nat :=
  [0, 129, 0, 2, 0, 0, 0, 7, 242, 49, 242, 49, 0, 0, 14, 16]

/-- Shared concrete fixture: the gateway at 10.0.1.1 answers the first
attempt with `respBytesResult2`. -/
def oracleResult2 : Nat → Option Datagram := fun k =>
  if k = 1 then some (respBytesResult2, "10.0.1.1", 5351) else none

/-- Shared concrete fixture: the decoded form of `respBytesResult2`. -/
def respResult2 : PortMapResponse :=
  { version := 0, opcode := 129, result := 2, sec_since_epoch := 7,
    private_port := 62001, public_port := 62001, lifetime := 3600 }

/-- Helper: counting sends in a run of identical send events. -/
theorem sendCount_replicate_send (k : Nat) (b : List Nat) :
    sendCount (List.replicate k (NetEvent.sendDgram b)) = k := by
  induction k with
  | zero => rfl
  | succ k ih =>
      simp only [List.replicate_succ, sendCount, List.filter_cons] at *
      simp [NetEvent.isSend, ih]

/-- Helper: a socket-open event does not change the send count. -/
theorem sendCount_sockOpen_cons (gw : String) (evs : List NetEvent) :
    sendCount (NetEvent.sockOpen gw :: evs) = sendCount evs := by
  simp [sendCount, List.filter_cons, NetEvent.isSend]

/-- Helper: if no attempt ever keeps non-empty data (every wait times
out or every arriving datagram is discarded by the source filter), the
loop runs its whole budget: it sends once per remaining iteration,
leaves `n` at `retry + 1`, and ends with empty data. -/
theorem srwrGo_no_accept (gw : String) (req : List Nat) (oracle : Nat → Option Datagram)
    (h : ∀ j, attemptData gw (oracle j) = []) :
    ∀ fuel n, srwrGo gw req oracle n fuel
      = (List.replicate fuel (NetEvent.sendDgram req), n + fuel, []) := by
  intro fuel
  induction fuel with
  | zero => intro n; rfl
  | succ f ih =>
      intro n
      simp only [srwrGo, h n]
      rw [if_pos trivial, ih (n + 1)]
      simp only [List.replicate_succ, Prod.mk.injEq, true_and, and_true, List.cons.injEq]
      omega

/-- Helper: a timed-out attempt keeps no data. -/
theorem attemptData_none (gw : String) : attemptData gw none = [] := by
  simp [attemptData, read_response]

/-- Helper: an attempt whose datagram fails the source filter keeps no
data. -/
theorem attemptData_mismatch (gw : String) (d : List Nat) (ip : String) (port : Nat)
    (h : ip ≠ gw ∨ port ≠ NATPMP_PORT) :
    attemptData gw (some (d, ip, port)) = [] := by
  simp only [attemptData, read_response]
  rw [if_pos h]

/-- Helper: an attempt whose datagram passes the source filter keeps the
first 16 bytes of it. -/
theorem attemptData_match (gw : String) (d : List Nat) :
    attemptData gw (some (d, gw, NATPMP_PORT)) = d.take 16 := by
  simp [attemptData, read_response]

/-- Helper: the loop only looks at the post-filter data of each attempt,
so two delivery oracles agreeing on that produce identical runs. -/
theorem srwrGo_congr (gw : String) (req : List Nat)
    (o1 o2 : Nat → Option Datagram)
    (h : ∀ j, attemptData gw (o1 j) = attemptData gw (o2 j)) :
    ∀ fuel n, srwrGo gw req o1 n fuel = srwrGo gw req o2 n fuel := by
  intro fuel
  induction fuel with
  | zero => intro n; rfl
  | succ f ih =>
      intro n
      simp only [srwrGo, h n, ih (n + 1)]

/-- Helper: if attempt `k` is the first to keep non-empty data `dt`, the
loop started at `n ≤ k` with enough budget sends once per attempt
`n .. k`, stops with `n = k + 1`, and hands `dt` to the post-loop tail. -/
theorem srwrGo_first_accept (gw : String) (req : List Nat)
    (oracle : Nat → Option Datagram) (k : Nat) (dt : List Nat)
    (hacc : attemptData gw (oracle k) = dt) (hdt : dt ≠ [])
    (hbefore : ∀ j, j < k → attemptData gw (oracle j) = []) :
    ∀ fuel n, n ≤ k → k < n + fuel →
      srwrGo gw req oracle n fuel
        = (List.replicate (k + 1 - n) (NetEvent.sendDgram req), k + 1, dt) := by
  intro fuel
  induction fuel with
  | zero => intro n h1 h2; omega
  | succ f ih =>
      intro n h1 h2
      by_cases hn : n = k
      · simp only [srwrGo, hn, hacc]
        rw [if_neg hdt]
        have hrep : k + 1 - k = 1 := by omega
        rw [hrep]
        rfl
      · have hlt : n < k := by omega
        simp only [srwrGo, hbefore n hlt]
        rw [if_pos trivial, ih (n + 1) (by omega) (by omega)]
        have hrep : k + 1 - n = (k + 1 - (n + 1)) + 1 := by omega
        rw [hrep, List.replicate_succ]

/-- Helper: every event the loop emits is a send of the encoded
request. -/
theorem srwrGo_only_sends (gw : String) (req : List Nat)
    (oracle : Nat → Option Datagram) :
    ∀ fuel n e, e ∈ (srwrGo gw req oracle n fuel).1 → e = NetEvent.sendDgram req := by
  intro fuel
  induction fuel with
  | zero => intro n e he; simp [srwrGo] at he
  | succ f ih =>
      intro n e he
      simp only [srwrGo] at he
      by_cases hd : attemptData gw (oracle n) = []
      · rw [hd, if_pos rfl] at he
        rcases List.mem_cons.mp he with h | h
        · exact h
        · exact ih (n + 1) e h
      · rw [if_neg hd] at he
        simpa using he

/-- C1 (counterexample): with retry budget 9, a 10-byte datagram from
the correct gateway source is accepted at attempt 1, the decode fails,
and the transaction terminates immediately with a decode error after a
single send — the remaining retries do not proceed, refuting the claim
that a wrong-length datagram never terminates the transaction early. -/
theorem srwr_wrong_length_terminates_cex :
    (send_request_with_retry "10.0.1.1" demoReqBytes decodePortMapResponse oracleShortDgram 9).2
      = Outcome.decodeError ∧
    sendCount
      (send_request_with_retry "10.0.1.1" demoReqBytes decodePortMapResponse oracleShortDgram 9).1
      = 1 := by
  decide

/-- C1 (amended): if the first attempt to keep data is attempt `k` of
the budget, its accepted datagram is nonempty after the 16-byte
truncation, and the response constructor rejects those bytes (wrong
length), then `send_request_with_retry` stops at attempt `k` — exactly
`k` sends — and the transaction terminates with the propagated decode
error rather than treating the attempt as silence. -/
theorem srwr_wrong_length_decode_error {ρ : Type} (gateway_ip : String) (reqBytes : List Nat)
    (decode : List Nat → Option ρ) (oracle : Nat → Option Datagram) (retry k : Nat)
    (d : List Nat)
    (hgw : gateway_ip ≠ "") (hk1 : 1 ≤ k) (hkr : k ≤ retry)
    (hacc : oracle k = some (d, gateway_ip, NATPMP_PORT))
    (hd : d.take 16 ≠ []) (hdec : decode (d.take 16) = none)
    (hbefore : ∀ j, j < k → attemptData gateway_ip (oracle j) = []) :
    (send_request_with_retry gateway_ip reqBytes decode oracle retry).2 = Outcome.decodeError ∧
    sendCount (send_request_with_retry gateway_ip reqBytes decode oracle retry).1 = k := by
  have hatt : attemptData gateway_ip (oracle k) = d.take 16 := by
    rw [hacc]; exact attemptData_match gateway_ip d
  have hrun := srwrGo_first_accept gateway_ip reqBytes oracle k (d.take 16) hatt hd hbefore
    retry 1 hk1 (by omega)
  unfold send_request_with_retry
  rw [if_neg hgw]
  simp only [hrun]
  constructor
  · show srwrOutcome decode retry (k + 1) (d.take 16) = Outcome.decodeError
    unfold srwrOutcome
    rw [if_neg (fun hand => hd hand.2), if_neg hd, hdec]
  · show sendCount (NetEvent.sockOpen gateway_ip
        :: List.replicate (k + 1 - 1) (NetEvent.sendDgram reqBytes)) = k
    rw [sendCount_sockOpen_cons, sendCount_replicate_send]
    omega

/-- C1 (amended, witness): the amended statement at the concrete run of
the counterexample — gateway 10.0.1.1, retry budget 9, a 10-byte
correctly-sourced datagram in attempt 1. -/
theorem srwr_wrong_length_decode_error_witness :
    (send_request_with_retry "10.0.1.1" demoReqBytes decodePortMapResponse oracleShortDgram 9).2
        = Outcome.decodeError ∧
    sendCount
        (send_request_with_retry "10.0.1.1" demoReqBytes decodePortMapResponse oracleShortDgram 9).1
      = 1 :=
  srwr_wrong_length_decode_error "10.0.1.1" demoReqBytes decodePortMapResponse oracleShortDgram
    9 1 [0, 129, 0, 0, 0, 0, 0, 0, 0, 0] (by decide) (by decide) (by decide) (by decide)
    (by decide) (by decide)
    (fun j hj => by
      have hj0 : j = 0 := by omega
      rw [hj0]
      decide)

/-- C2: when the gateway socket opens (non-empty gateway address) and no
datagram is ever accepted — every attempt window times out or delivers
only datagrams failing the source filter — `send_request_with_retry`
with budget `retry ≥ 1` sends the encoded request exactly `retry` times
and ends with `NATPMPUnsupportedError` carrying code
`NATPMP_GATEWAY_NO_SUPPORT`, never fewer sends and never more. -/
theorem srwr_exhaustion {ρ : Type} (gateway_ip : String) (reqBytes : List Nat)
    (decode : List Nat → Option ρ) (oracle : Nat → Option Datagram) (retry : Nat)
    (hgw : gateway_ip ≠ "") (hretry : 1 ≤ retry)
    (hnoacc : ∀ j, oracle j = none ∨
      ∃ d ip port, oracle j = some (d, ip, port) ∧ (ip ≠ gateway_ip ∨ port ≠ NATPMP_PORT)) :
    (send_request_with_retry gateway_ip reqBytes decode oracle retry).1
      = NetEvent.sockOpen gateway_ip :: List.replicate retry (NetEvent.sendDgram reqBytes) ∧
    sendCount (send_request_with_retry gateway_ip reqBytes decode oracle retry).1 = retry ∧
    (send_request_with_retry gateway_ip reqBytes decode oracle retry).2
      = Outcome.unsupportedError NATPMP_GATEWAY_NO_SUPPORT
          (error_str NATPMP_GATEWAY_NO_SUPPORT) := by
  have hAll : ∀ j, attemptData gateway_ip (oracle j) = [] := by
    intro j
    rcases hnoacc j with h | ⟨d, ip, port, heq, hmis⟩
    · rw [h]; exact attemptData_none gateway_ip
    · rw [heq]; exact attemptData_mismatch gateway_ip d ip port hmis
  have hrun := srwrGo_no_accept gateway_ip reqBytes oracle hAll retry 1
  unfold send_request_with_retry
  rw [if_neg hgw]
  simp only [hrun]
  refine ⟨trivial, ?_, ?_⟩
  · show sendCount (NetEvent.sockOpen gateway_ip
        :: List.replicate retry (NetEvent.sendDgram reqBytes)) = retry
    rw [sendCount_sockOpen_cons, sendCount_replicate_send]
  · show srwrOutcome decode retry (1 + retry) [] = _
    unfold srwrOutcome
    rw [if_pos ⟨by omega, rfl⟩]

/-- C2 (witness): gateway 10.0.1.1, budget 9, a gateway that never
replies: exactly 9 sends, then the unsupported-gateway failure. -/
theorem srwr_exhaustion_witness :
    (send_request_with_retry "10.0.1.1" demoReqBytes decodePortMapResponse oracleSilent 9).1
      = NetEvent.sockOpen "10.0.1.1" :: List.replicate 9 (NetEvent.sendDgram demoReqBytes) ∧
    sendCount (send_request_with_retry "10.0.1.1" demoReqBytes decodePortMapResponse oracleSilent 9).1
      = 9 ∧
    (send_request_with_retry "10.0.1.1" demoReqBytes decodePortMapResponse oracleSilent 9).2
      = Outcome.unsupportedError NATPMP_GATEWAY_NO_SUPPORT
          (error_str NATPMP_GATEWAY_NO_SUPPORT) :=
  srwr_exhaustion "10.0.1.1" demoReqBytes decodePortMapResponse oracleSilent 9
    (by decide) (by decide) (fun j => Or.inl rfl)

/-- C3: a datagram whose source address or source port differs from the
target gateway endpoint is never returned as the transaction's result:
replacing such a delivery by a timeout (nothing arriving in that
attempt window) leaves the entire run of `send_request_with_retry` —
its event trace and its outcome — unchanged. -/
theorem srwr_source_filtering {ρ : Type} (gateway_ip : String) (reqBytes : List Nat)
    (decode : List Nat → Option ρ) (o1 o2 : Nat → Option Datagram) (retry k : Nat)
    (d : List Nat) (ip : String) (port : Nat)
    (hk : o1 k = some (d, ip, port)) (hmis : ip ≠ gateway_ip ∨ port ≠ NATPMP_PORT)
    (hnone : o2 k = none) (hagree : ∀ j, j ≠ k → o1 j = o2 j) :
    send_request_with_retry gateway_ip reqBytes decode o1 retry
      = send_request_with_retry gateway_ip reqBytes decode o2 retry := by
  have hAtt : ∀ j, attemptData gateway_ip (o1 j) = attemptData gateway_ip (o2 j) := by
    intro j
    by_cases hj : j = k
    · rw [hj, hk, hnone, attemptData_none, attemptData_mismatch gateway_ip d ip port hmis]
    · rw [hagree j hj]
  unfold send_request_with_retry
  rw [srwrGo_congr gateway_ip reqBytes o1 o2 hAtt retry 1]

/-- C3 (witness): a spoofed reply from 9.9.9.9 in attempt window 2 is
equivalent to silence: the run equals the run against a gateway that
never replies. -/
theorem srwr_source_filtering_witness :
    send_request_with_retry "10.0.1.1" demoReqBytes decodePortMapResponse oracleSpoofed 3
      = send_request_with_retry "10.0.1.1" demoReqBytes decodePortMapResponse oracleSilent 3 :=
  srwr_source_filtering "10.0.1.1" demoReqBytes decodePortMapResponse oracleSpoofed oracleSilent
    3 2 [1, 2, 3] "9.9.9.9" 5351 (by decide) (Or.inl (by decide)) rfl
    (fun j hj => by simp [oracleSpoofed, oracleSilent, hj])

/-- C4 (counterexample): a run of `send_request_with_retry` that returns
a decoded response opens its socket and exits without ever closing it —
refuting the claim that the socket is released on every exit path. -/
theorem srwr_socket_left_open_cex :
    NetEvent.sockOpen "10.0.1.1"
        ∈ (send_request_with_retry "10.0.1.1" demoReqBytes decodePortMapResponse oracleResult2 9).1 ∧
    NetEvent.sockClose
        ∉ (send_request_with_retry "10.0.1.1" demoReqBytes decodePortMapResponse oracleResult2 9).1 := by
  decide

/-- C4 (amended): `send_request_with_retry` never closes the socket it
opens: on no exit path (decoded response, retry exhaustion, decode
error, or network error) does a close operation appear in the event
trace — any release is left to the interpreter's garbage collection,
outside the function. -/
theorem srwr_never_closes_socket {ρ : Type} (gateway_ip : String) (reqBytes : List Nat)
    (decode : List Nat → Option ρ) (oracle : Nat → Option Datagram) (retry : Nat) :
    NetEvent.sockClose ∉ (send_request_with_retry gateway_ip reqBytes decode oracle retry).1 := by
  unfold send_request_with_retry
  by_cases hgw : gateway_ip = ""
  · rw [if_pos hgw]
    simp
  · rw [if_neg hgw]
    intro hmem
    rcases List.mem_cons.mp hmem with h | h
    · exact NetEvent.noConfusion h
    · exact NetEvent.noConfusion
        (srwrGo_only_sends gateway_ip reqBytes oracle retry 1 NetEvent.sockClose h)

/-- C5: for protocol 1 or 2, in-range ports and lifetime, the serialized
`PortMapRequest` is exactly 12 bytes of byte values, laid out big-endian
as version (0), opcode = protocol, reserved u16 = 0, private port u16,
public port u16, lifetime u32, in that order. -/
theorem portMapRequest_toBytes_layout (protocol private_port public_port lifetime : Nat)
    (b : List Nat)
    (hb : b = (PortMapRequest.init protocol private_port public_port lifetime 0).toBytes)
    (hp : protocol = NATPMP_PROTOCOL_UDP ∨ protocol = NATPMP_PROTOCOL_TCP)
    (hpriv : private_port < 65536) (hpub : public_port < 65536)
    (hlife : lifetime < 4294967296) :
    b.length = 12 ∧
    b.getD 0 0 = 0 ∧ b.getD 1 0 = protocol ∧ b.getD 2 0 = 0 ∧ b.getD 3 0 = 0 ∧
    b.getD 4 0 * 256 + b.getD 5 0 = private_port ∧
    b.getD 6 0 * 256 + b.getD 7 0 = public_port ∧
    ((b.getD 8 0 * 256 + b.getD 9 0) * 256 + b.getD 10 0) * 256 + b.getD 11 0 = lifetime ∧
    ∀ x ∈ b, x < 256 := by
  have hp256 : protocol < 256 := by rcases hp with h | h <;> rw [h] <;> decide
  have hb2 : (PortMapRequest.init protocol private_port public_port lifetime 0).toBytes
      = [0, protocol % 256, 0, 0,
         private_port / 256 % 256, private_port % 256,
         public_port / 256 % 256, public_port % 256,
         lifetime / 16777216 % 256, lifetime / 65536 % 256,
         lifetime / 256 % 256, lifetime % 256] := rfl
  rw [hb, hb2]
  refine ⟨rfl, rfl, ?_, rfl, rfl, ?_, ?_, ?_, ?_⟩
  · show protocol % 256 = protocol
    omega
  · show private_port / 256 % 256 * 256 + private_port % 256 = private_port
    omega
  · show public_port / 256 % 256 * 256 + public_port % 256 = public_port
    omega
  · show ((lifetime / 16777216 % 256 * 256 + lifetime / 65536 % 256) * 256
        + lifetime / 256 % 256) * 256 + lifetime % 256 = lifetime
    omega
  · intro x hx
    simp only [List.mem_cons, List.not_mem_nil, or_false] at hx
    rcases hx with rfl | rfl | rfl | rfl | rfl | rfl | rfl | rfl | rfl | rfl | rfl | rfl <;> omega

/-- C5 (witness): the layout statement at the concrete request
`PortMapRequest(TCP, 62001, 62001, 3600)`. -/
theorem portMapRequest_toBytes_layout_witness :
    demoReqBytes.length = 12 ∧
    demoReqBytes.getD 0 0 = 0 ∧ demoReqBytes.getD 1 0 = 2 ∧
    demoReqBytes.getD 2 0 = 0 ∧ demoReqBytes.getD 3 0 = 0 ∧
    demoReqBytes.getD 4 0 * 256 + demoReqBytes.getD 5 0 = 62001 ∧
    demoReqBytes.getD 6 0 * 256 + demoReqBytes.getD 7 0 = 62001 ∧
    ((demoReqBytes.getD 8 0 * 256 + demoReqBytes.getD 9 0) * 256
        + demoReqBytes.getD 10 0) * 256 + demoReqBytes.getD 11 0 = 3600 ∧
    ∀ x ∈ demoReqBytes, x < 256 :=
  portMapRequest_toBytes_layout 2 62001 62001 3600 demoReqBytes rfl (Or.inr rfl)
    (by decide) (by decide) (by decide)

/-- C6: decoding a byte sequence as a `PublicAddressResponse` succeeds
exactly when it is 12 bytes long, and as a `PortMapResponse` exactly
when it is 16 bytes long; any other length always fails and nothing is
partially parsed. -/
theorem decode_length_guard (b : List Nat) :
    ((decodePublicAddressResponse b).isSome ↔ b.length = 12) ∧
    ((decodePortMapResponse b).isSome ↔ b.length = 16) := by
  constructor
  · unfold decodePublicAddressResponse
    split <;> simp_all
  · unfold decodePortMapResponse
    split <;> simp_all

/-- C7 (counterexample): the encoded form of the valid request
`PortMapRequest(TCP, 62001, 62001, 3600)` is 12 bytes, and the
repository's port-mapping decoder (`PortMapResponse`, which requires 16
bytes) fails on it — `decode(encode(request))` does not yield the
request back. -/
theorem portMap_decode_encode_fails_cex :
    decodePortMapResponse ((PortMapRequest.init NATPMP_PROTOCOL_TCP 62001 62001 3600 0).toBytes)
      = none ∧
    ((PortMapRequest.init NATPMP_PROTOCOL_TCP 62001 62001 3600 0).toBytes).length = 12 := by
  decide

/-- C7 (amended): the repository has no request decoder and its
response decoder rejects the 12-byte request encoding; the encoding is
nevertheless lossless — reading the encoded bytes back with the
request-layout decoder recovers every valid request field-for-field. -/
theorem portMapRequest_roundtrip (protocol private_port public_port lifetime : Nat)
    (hp : protocol = NATPMP_PROTOCOL_UDP ∨ protocol = NATPMP_PROTOCOL_TCP)
    (hpriv : private_port < 65536) (hpub : public_port < 65536)
    (hlife : lifetime < 4294967296) :
    decodePortMapRequest ((PortMapRequest.init protocol private_port public_port lifetime 0).toBytes)
      = some (PortMapRequest.init protocol private_port public_port lifetime 0) := by
  have hp256 : protocol < 256 := by rcases hp with h | h <;> rw [h] <;> decide
  have hb2 : (PortMapRequest.init protocol private_port public_port lifetime 0).toBytes
      = [0, protocol % 256, 0, 0,
         private_port / 256 % 256, private_port % 256,
         public_port / 256 % 256, public_port % 256,
         lifetime / 16777216 % 256, lifetime / 65536 % 256,
         lifetime / 256 % 256, lifetime % 256] := rfl
  rw [hb2]
  unfold decodePortMapRequest
  rw [if_pos (by simp)]
  simp only [List.getD_cons_zero, List.getD_cons_succ, Option.some.injEq,
    PortMapRequest.mk.injEq, PortMapRequest.init]
  refine ⟨trivial, ?_, ?_, ?_, ?_⟩ <;> omega

/-- C7 (amended, witness): the round-trip at the concrete valid request
`PortMapRequest(UDP, 5555, 80, 7200)`. -/
theorem portMapRequest_roundtrip_witness :
    decodePortMapRequest ((PortMapRequest.init 1 5555 80 7200 0).toBytes)
      = some (PortMapRequest.init 1 5555 80 7200 0) :=
  portMapRequest_roundtrip 1 5555 80 7200 (Or.inl rfl) (by decide) (by decide) (by decide)

/-- C8: for a protocol value that is neither `NATPMP_PROTOCOL_UDP` nor
`NATPMP_PROTOCOL_TCP`, `map_port` fails with the local `ValueError`
before any I/O: its event trace is empty — no gateway discovery, no
socket creation, no datagram sent. -/
theorem map_port_invalid_protocol (protocol public_port private_port lifetime : Nat)
    (gateway_ip : Option String) (retry : Nat) (use_exception : Bool)
    (discovered : String) (oracle : Nat → Option Datagram)
    (h1 : protocol ≠ NATPMP_PROTOCOL_UDP) (h2 : protocol ≠ NATPMP_PROTOCOL_TCP) :
    map_port protocol public_port private_port lifetime gateway_ip retry use_exception
        discovered oracle
      = ([], MapPortOutcome.valueError
          "Must be either NATPMP_PROTOCOL_UDP or NATPMP_PROTOCOL_TCP") := by
  unfold map_port
  rw [if_pos ⟨h1, h2⟩]

/-- C8 (witness): protocol value 6 with auto-detected gateway: the call
fails locally with no events at all. -/
theorem map_port_invalid_protocol_witness :
    map_port 6 8080 8080 3600 none 9 true "10.0.1.1" oracleSilent
      = ([], MapPortOutcome.valueError
          "Must be either NATPMP_PROTOCOL_UDP or NATPMP_PROTOCOL_TCP") :=
  map_port_invalid_protocol 6 8080 8080 3600 none 9 true "10.0.1.1" oracleSilent
    (by decide) (by decide)

/-- C9: whenever the engine hands `map_port` a decoded
`PortMapResponse`, the call raises `NATPMPResultError` — carrying the
numeric result code, its description, and the full decoded response —
exactly when the result code is non-zero and `use_exception` is true;
otherwise it returns the full decoded response, including when the
result code is non-zero but `use_exception` is false. -/
theorem map_port_result_handling (protocol public_port private_port lifetime : Nat)
    (gw : String) (retry : Nat) (use_exception : Bool) (discovered : String)
    (oracle : Nat → Option Datagram) (resp : PortMapResponse)
    (hp : protocol = NATPMP_PROTOCOL_UDP ∨ protocol = NATPMP_PROTOCOL_TCP)
    (hok : (send_request_with_retry gw
        (PortMapRequest.init protocol private_port public_port lifetime 0).toBytes
        decodePortMapResponse oracle retry).2 = Outcome.ok resp) :
    (map_port protocol public_port private_port lifetime (some gw) retry use_exception
        discovered oracle).2
      = if resp.result ≠ 0 ∧ use_exception = true then
          MapPortOutcome.resultError resp.result (error_str (resp.result : Int)) resp
        else MapPortOutcome.response resp := by
  have hcond : ¬(protocol ≠ NATPMP_PROTOCOL_UDP ∧ protocol ≠ NATPMP_PROTOCOL_TCP) := by
    rcases hp with h | h <;> simp [h]
  simp only [map_port, hcond, if_false, hok]
  split <;> rfl

/-- C9 (witness): a gateway reply with result code 2 (not authorized)
and `use_exception = true`: `map_port` fails with
`NATPMPResultError(2, error_str(2), response)`. -/
theorem map_port_result_handling_witness :
    (map_port 2 62001 62001 3600 (some "10.0.1.1") 9 true "0.0.0.0" oracleResult2).2
      = MapPortOutcome.resultError 2 (error_str 2) respResult2 := by
  have h := map_port_result_handling 2 62001 62001 3600 "10.0.1.1" 9 true "0.0.0.0"
    oracleResult2 respResult2 (Or.inr rfl) (by decide)
  rw [h]
  decide

/-- C10: `read_response` with the default buffer size 16 returns at most
the first 16 bytes of the delivered datagram; a datagram longer than 16
bytes is not rejected but silently truncated to its first 16 bytes, and
those truncated bytes pass the 16-byte `PortMapResponse` decode. -/
theorem read_response_truncates (d : List Nat) (ip : String) (port : Nat)
    (h : 16 < d.length) :
    (read_response (some (d, ip, port)) 16).1 = d.take 16 ∧
    (read_response (some (d, ip, port)) 16).1.length = 16 ∧
    (decodePortMapResponse (read_response (some (d, ip, port)) 16).1).isSome = true := by
  have hlen : (d.take 16).length = 16 := by
    rw [List.length_take]
    omega
  refine ⟨rfl, hlen, ?_⟩
  show (decodePortMapResponse (d.take 16)).isSome = true
  simp [decodePortMapResponse, hlen]

/-- C10 (witness): a 20-byte datagram is truncated to its first 16
bytes, which decode successfully. -/
theorem read_response_truncates_witness :
    (read_response (some (List.range 20, "10.0.1.1", 5351)) 16).1 = (List.range 20).take 16 ∧
    (read_response (some (List.range 20, "10.0.1.1", 5351)) 16).1.length = 16 ∧
    (decodePortMapResponse (read_response (some (List.range 20, "10.0.1.1", 5351)) 16).1).isSome
      = true :=
  read_response_truncates (List.range 20) "10.0.1.1" 5351 (by decide)

end NATPMP
